import Mathlib

/-!
# Verification of the `hash-files` pipeline

Shallow embedding of `lib/hash.ts`: the exported entry points `hashFiles`
(non-blocking variant) and `hashFilesSync` (blocking variant), together with the
platform primitives they call, and proofs of the specified properties.

Bytes are modelled as `Nat` (values below 256 in every reachable state), file
contents as `List Nat`, and the filesystem as an association list from path to
contents.  The cryptographic digest primitive `crypto.subtle.digest` is modelled
by executable FIPS 180-4 implementations of SHA-1 / SHA-256 / SHA-384 / SHA-512,
validated below against the standard test vectors.
-/

set_option maxRecDepth 8192

namespace HashFiles

/-! ## Hex encoding (`b.toString(16).padStart(2, "0")` mapped over the bytes) -/

/-- Lowercase hexadecimal digit for a value below 16 (`0`–`9`, `a`–`f`). -/
def hexDigitChar (n : Nat) : Char :=
  if n < 10 then Char.ofNat (48 + n) else Char.ofNat (87 + n)

/-- `b.toString(16).padStart(2, "0")` for a byte `b < 256`: exactly two hex digits. -/
def byteToHexChars (b : Nat) : List Char :=
  [hexDigitChar (b / 16 % 16), hexDigitChar (b % 16)]

/-- Hex encoding of a byte list, two lowercase hex characters per byte. -/
def hexEncodeChars : List Nat → List Char
  | [] => []
  | b :: bs => byteToHexChars b ++ hexEncodeChars bs

/-- Hex encoding as a string (the `.map(...).join("")` step of the source). -/
def hexEncode (bs : List Nat) : String := ⟨hexEncodeChars bs⟩

/-- Membership in the lowercase hex alphabet (the character class of the
specified pattern for digest strings). -/
def isHexChar (c : Char) : Bool := "0123456789abcdef".data.contains c

/-! ## 32-bit and 64-bit word arithmetic -/

/-- `2^32`, the modulus of 32-bit word arithmetic. -/
def w32 : Nat := 4294967296

/-- `2^64`, the modulus of 64-bit word arithmetic. -/
def w64 : Nat := 18446744073709551616

/-- Right rotation of a 32-bit word (input below `2^32`). -/
def rotr32 (n x : Nat) : Nat := x / 2 ^ n + x % 2 ^ n * 2 ^ (32 - n)

/-- Right rotation of a 64-bit word (input below `2^64`). -/
def rotr64 (n x : Nat) : Nat := x / 2 ^ n + x % 2 ^ n * 2 ^ (64 - n)

/-- Big-endian bytes of `n`, `k` bytes wide. -/
def natToBytesBE : Nat → Nat → List Nat
  | 0, _ => []
  | k + 1, n => natToBytesBE k (n / 256) ++ [n % 256]

/-- Big-endian 32-bit words from a byte list (length a multiple of 4). -/
def bytesToWords32 : List Nat → List Nat
  | b0 :: b1 :: b2 :: b3 :: rest =>
    (((b0 * 256 + b1) * 256 + b2) * 256 + b3) :: bytesToWords32 rest
  | _ => []

/-- Big-endian 64-bit words from a byte list (length a multiple of 8). -/
def bytesToWords64 : List Nat → List Nat
  | b0 :: b1 :: b2 :: b3 :: b4 :: b5 :: b6 :: b7 :: rest =>
    (((((((b0 * 256 + b1) * 256 + b2) * 256 + b3) * 256 + b4) * 256 + b5) * 256
        + b6) * 256 + b7) :: bytesToWords64 rest
  | _ => []

/-- Big-endian bytes of a 32-bit word. -/
def word32Bytes (x : Nat) : List Nat :=
  [x / 16777216 % 256, x / 65536 % 256, x / 256 % 256, x % 256]

/-- Big-endian bytes of a 64-bit word. -/
def word64Bytes (x : Nat) : List Nat :=
  [x / 72057594037927936 % 256, x / 281474976710656 % 256,
   x / 1099511627776 % 256, x / 4294967296 % 256,
   x / 16777216 % 256, x / 65536 % 256, x / 256 % 256, x % 256]

/-! ## Message padding and block splitting (FIPS 180-4 §5.1) -/

/-- FIPS 180-4 padding: append `0x80`, zero bytes to a block boundary leaving room
for the message bit length, then the bit length (`lenBytes` bytes, big-endian). -/
def padMessage (blockBytes lenBytes : Nat) (msg : List Nat) : List Nat :=
  let r := (msg.length + 1 + lenBytes) % blockBytes
  msg ++ 128 :: (List.replicate ((blockBytes - r) % blockBytes) 0
    ++ natToBytesBE lenBytes (msg.length * 8))

/-- Split a list into consecutive chunks of at most `k` elements; the fuel (first
argument) bounds the number of chunks, `l.length` suffices whenever `k ≥ 1`. -/
def chunksAux {α : Type} (k : Nat) : Nat → List α → List (List α)
  | 0, _ => []
  | _ + 1, [] => []
  | fuel + 1, x :: xs => (x :: xs).take k :: chunksAux k fuel ((x :: xs).drop k)

/-- Consecutive chunks of at most `k` elements (faithful for `k ≥ 1`). -/
def chunks {α : Type} (k : Nat) (l : List α) : List (List α) :=
  chunksAux k l.length l

/-! ## SHA-256 (FIPS 180-4 §6.2), modelling one branch of `crypto.subtle.digest` -/

/-- Working state of the SHA-2 family: eight words `a`–`h` (for SHA-1 only `a`–`e`
are meaningful and held in `Sha1State`). -/
structure Sha2State where
  a : Nat
  b : Nat
  c : Nat
  d : Nat
  e : Nat
  f : Nat
  g : Nat
  h : Nat
deriving DecidableEq, Repr

/-- `Ch(x, y, z)` over 32-bit words. -/
def shaCh (x y z : Nat) : Nat := (x &&& y) ^^^ ((x ^^^ 4294967295) &&& z)

/-- `Maj(x, y, z)`. -/
def shaMaj (x y z : Nat) : Nat := ((x &&& y) ^^^ (x &&& z)) ^^^ (y &&& z)

/-- SHA-256 `Σ0`. -/
def bigSigma0 (x : Nat) : Nat := (rotr32 2 x ^^^ rotr32 13 x) ^^^ rotr32 22 x

/-- SHA-256 `Σ1`. -/
def bigSigma1 (x : Nat) : Nat := (rotr32 6 x ^^^ rotr32 11 x) ^^^ rotr32 25 x

/-- SHA-256 `σ0`. -/
def smallSigma0 (x : Nat) : Nat := (rotr32 7 x ^^^ rotr32 18 x) ^^^ (x >>> 3)

/-- SHA-256 `σ1`. -/
def smallSigma1 (x : Nat) : Nat := (rotr32 17 x ^^^ rotr32 19 x) ^^^ (x >>> 10)

/-- The 64 SHA-256 round constants. -/
def K256 : List Nat := [
  1116352408, 1899447441, 3049323471, 3921009573, 961987163, 1508970993,
  2453635748, 2870763221, 3624381080, 310598401, 607225278, 1426881987,
  1925078388, 2162078206, 2614888103, 3248222580, 3835390401, 4022224774,
  264347078, 604807628, 770255983, 1249150122, 1555081692, 1996064986,
  2554220882, 2821834349, 2952996808, 3210313671, 3336571891, 3584528711,
  113926993, 338241895, 666307205, 773529912, 1294757372, 1396182291,
  1695183700, 1986661051, 2177026350, 2456956037, 2730485921, 2820302411,
  3259730800, 3345764771, 3516065817, 3600352804, 4094571909, 275423344,
  430227734, 506948616, 659060556, 883997877, 958139571, 1322822218,
  1537002063, 1747873779, 1955562222, 2024104815, 2227730452, 2361852424,
  2428436474, 2756734187, 3204031479, 3329325298
]

/-- Message-schedule extension for SHA-256; `acc` holds the words produced so far,
newest first, so `W[t-2]`, `W[t-7]`, `W[t-15]`, `W[t-16]` sit at positions
1, 6, 14, 15. -/
def sha256ExtendAux : Nat → List Nat → List Nat
  | 0, acc => acc
  | n + 1, acc =>
    let w := (smallSigma1 (acc.getD 1 0) + acc.getD 6 0
      + smallSigma0 (acc.getD 14 0) + acc.getD 15 0) % w32
    sha256ExtendAux n (w :: acc)

/-- The 64-word SHA-256 message schedule of one 64-byte block. -/
def sha256Schedule (block : List Nat) : List Nat :=
  (sha256ExtendAux 48 (bytesToWords32 block).reverse).reverse

/-- One SHA-256 round; the pair carries `(W_t, K_t)`. -/
def sha256Round (st : Sha2State) (wk : Nat × Nat) : Sha2State :=
  let t1 := (st.h + bigSigma1 st.e + shaCh st.e st.f st.g + wk.2 + wk.1) % w32
  let t2 := (bigSigma0 st.a + shaMaj st.a st.b st.c) % w32
  { a := (t1 + t2) % w32, b := st.a, c := st.b, d := st.c,
    e := (st.d + t1) % w32, f := st.e, g := st.f, h := st.g }

/-- SHA-256 compression of one 64-byte block into the chaining state. -/
def sha256Block (st : Sha2State) (block : List Nat) : Sha2State :=
  let r := ((sha256Schedule block).zip K256).foldl sha256Round st
  { a := (st.a + r.a) % w32, b := (st.b + r.b) % w32, c := (st.c + r.c) % w32,
    d := (st.d + r.d) % w32, e := (st.e + r.e) % w32, f := (st.f + r.f) % w32,
    g := (st.g + r.g) % w32, h := (st.h + r.h) % w32 }

/-- SHA-256 initial hash value. -/
def sha256IV : Sha2State :=
  ⟨1779033703, 3144134277, 1013904242, 2773480762,
   1359893119, 2600822924, 528734635, 1541459225⟩

/-- The eight 32-bit state words as 32 big-endian bytes. -/
def sha2StateBytes32 (st : Sha2State) : List Nat :=
  word32Bytes st.a ++ word32Bytes st.b ++ word32Bytes st.c ++ word32Bytes st.d
    ++ word32Bytes st.e ++ word32Bytes st.f ++ word32Bytes st.g ++ word32Bytes st.h

/-- SHA-256 digest (32 bytes) of a byte sequence. -/
def sha256 (msg : List Nat) : List Nat :=
  sha2StateBytes32 ((chunks 64 (padMessage 64 8 msg)).foldl sha256Block sha256IV)

/-! ## SHA-1 (FIPS 180-4 §6.1) -/

/-- Working state of SHA-1: five words. -/
structure Sha1State where
  a : Nat
  b : Nat
  c : Nat
  d : Nat
  e : Nat
deriving DecidableEq, Repr

/-- The SHA-1 round function `f_t`. -/
def sha1F (t b c d : Nat) : Nat :=
  if t < 20 then (b &&& c) ||| ((b ^^^ 4294967295) &&& d)
  else if t < 40 then (b ^^^ c) ^^^ d
  else if t < 60 then ((b &&& c) ||| (b &&& d)) ||| (c &&& d)
  else (b ^^^ c) ^^^ d

/-- The SHA-1 round constant `K_t`. -/
def sha1K (t : Nat) : Nat :=
  if t < 20 then 1518500249
  else if t < 40 then 1859775393
  else if t < 60 then 2400959708
  else 3395469782

/-- Message-schedule extension for SHA-1 (`W[t-3]`, `W[t-8]`, `W[t-14]`, `W[t-16]`
at positions 2, 7, 13, 15 of the reversed accumulator, rotated left by one). -/
def sha1ExtendAux : Nat → List Nat → List Nat
  | 0, acc => acc
  | n + 1, acc =>
    let w := rotr32 31 (((acc.getD 2 0 ^^^ acc.getD 7 0)
      ^^^ acc.getD 13 0) ^^^ acc.getD 15 0)
    sha1ExtendAux n (w :: acc)

/-- The 80-word SHA-1 message schedule of one 64-byte block. -/
def sha1Schedule (block : List Nat) : List Nat :=
  (sha1ExtendAux 64 (bytesToWords32 block).reverse).reverse

/-- One SHA-1 round; the pair carries `(W_t, t)`. -/
def sha1Round (st : Sha1State) (wt : Nat × Nat) : Sha1State :=
  let tmp := (rotr32 27 st.a + sha1F wt.2 st.b st.c st.d + st.e
    + sha1K wt.2 + wt.1) % w32
  ⟨tmp, st.a, rotr32 2 st.b, st.c, st.d⟩

/-- SHA-1 compression of one 64-byte block. -/
def sha1Block (st : Sha1State) (block : List Nat) : Sha1State :=
  let r := ((sha1Schedule block).zip (List.range 80)).foldl sha1Round st
  ⟨(st.a + r.a) % w32, (st.b + r.b) % w32, (st.c + r.c) % w32,
   (st.d + r.d) % w32, (st.e + r.e) % w32⟩

/-- SHA-1 initial hash value. -/
def sha1IV : Sha1State :=
  ⟨1732584193, 4023233417, 2562383102, 271733878, 3285377520⟩

/-- SHA-1 digest (20 bytes) of a byte sequence. -/
def sha1 (msg : List Nat) : List Nat :=
  let st := (chunks 64 (padMessage 64 8 msg)).foldl sha1Block sha1IV
  word32Bytes st.a ++ word32Bytes st.b ++ word32Bytes st.c
    ++ word32Bytes st.d ++ word32Bytes st.e

/-! ## SHA-512 and SHA-384 (FIPS 180-4 §6.4, §6.5) -/

/-- SHA-512 `Ch` (64-bit complement). -/
def shaCh64 (x y z : Nat) : Nat :=
  (x &&& y) ^^^ ((x ^^^ 18446744073709551615) &&& z)

/-- SHA-512 `Σ0`. -/
def bigSigma0w64 (x : Nat) : Nat := (rotr64 28 x ^^^ rotr64 34 x) ^^^ rotr64 39 x

/-- SHA-512 `Σ1`. -/
def bigSigma1w64 (x : Nat) : Nat := (rotr64 14 x ^^^ rotr64 18 x) ^^^ rotr64 41 x

/-- SHA-512 `σ0`. -/
def smallSigma0w64 (x : Nat) : Nat := (rotr64 1 x ^^^ rotr64 8 x) ^^^ (x >>> 7)

/-- SHA-512 `σ1`. -/
def smallSigma1w64 (x : Nat) : Nat := (rotr64 19 x ^^^ rotr64 61 x) ^^^ (x >>> 6)

/-- The 80 SHA-512 round constants. -/
def K512 : List Nat := [
  4794697086780616226, 8158064640168781261, 13096744586834688815, 16840607885511220156,
  4131703408338449720, 6480981068601479193, 10538285296894168987, 12329834152419229976,
  15566598209576043074, 1334009975649890238, 2608012711638119052, 6128411473006802146,
  8268148722764581231, 9286055187155687089, 11230858885718282805, 13951009754708518548,
  16472876342353939154, 17275323862435702243, 1135362057144423861, 2597628984639134821,
  3308224258029322869, 5365058923640841347, 6679025012923562964, 8573033837759648693,
  10970295158949994411, 12119686244451234320, 12683024718118986047, 13788192230050041572,
  14330467153632333762, 15395433587784984357, 489312712824947311, 1452737877330783856,
  2861767655752347644, 3322285676063803686, 5560940570517711597, 5996557281743188959,
  7280758554555802590, 8532644243296465576, 9350256976987008742, 10552545826968843579,
  11727347734174303076, 12113106623233404929, 14000437183269869457, 14369950271660146224,
  15101387698204529176, 15463397548674623760, 17586052441742319658, 1182934255886127544,
  1847814050463011016, 2177327727835720531, 2830643537854262169, 3796741975233480872,
  4115178125766777443, 5681478168544905931, 6601373596472566643, 7507060721942968483,
  8399075790359081724, 8693463985226723168, 9568029438360202098, 10144078919501101548,
  10430055236837252648, 11840083180663258601, 13761210420658862357, 14299343276471374635,
  14566680578165727644, 15097957966210449927, 16922976911328602910, 17689382322260857208,
  500013540394364858, 748580250866718886, 1242879168328830382, 1977374033974150939,
  2944078676154940804, 3659926193048069267, 4368137639120453308, 4836135668995329356,
  5532061633213252278, 6448918945643986474, 6902733635092675308, 7801388544844847127
]

/-- Message-schedule extension for SHA-512 (same index pattern as SHA-256,
64-bit arithmetic). -/
def sha512ExtendAux : Nat → List Nat → List Nat
  | 0, acc => acc
  | n + 1, acc =>
    let w := (smallSigma1w64 (acc.getD 1 0) + acc.getD 6 0
      + smallSigma0w64 (acc.getD 14 0) + acc.getD 15 0) % w64
    sha512ExtendAux n (w :: acc)

/-- The 80-word SHA-512 message schedule of one 128-byte block. -/
def sha512Schedule (block : List Nat) : List Nat :=
  (sha512ExtendAux 64 (bytesToWords64 block).reverse).reverse

/-- One SHA-512 round; the pair carries `(W_t, K_t)`. -/
def sha512Round (st : Sha2State) (wk : Nat × Nat) : Sha2State :=
  let t1 := (st.h + bigSigma1w64 st.e + shaCh64 st.e st.f st.g + wk.2 + wk.1) % w64
  let t2 := (bigSigma0w64 st.a + shaMaj st.a st.b st.c) % w64
  { a := (t1 + t2) % w64, b := st.a, c := st.b, d := st.c,
    e := (st.d + t1) % w64, f := st.e, g := st.f, h := st.g }

/-- SHA-512 compression of one 128-byte block. -/
def sha512Block (st : Sha2State) (block : List Nat) : Sha2State :=
  let r := ((sha512Schedule block).zip K512).foldl sha512Round st
  { a := (st.a + r.a) % w64, b := (st.b + r.b) % w64, c := (st.c + r.c) % w64,
    d := (st.d + r.d) % w64, e := (st.e + r.e) % w64, f := (st.f + r.f) % w64,
    g := (st.g + r.g) % w64, h := (st.h + r.h) % w64 }

/-- SHA-512 initial hash value. -/
def sha512IV : Sha2State :=
  ⟨7640891576956012808, 13503953896175478587, 4354685564936845355, 11912009170470909681,
   5840696475078001361, 11170449401992604703, 2270897969802886507, 6620516959819538809⟩

/-- SHA-384 initial hash value. -/
def sha384IV : Sha2State :=
  ⟨14680500436340154072, 7105036623409894663, 10473403895298186519, 1526699215303891257,
   7436329637833083697, 10282925794625328401, 15784041429090275239, 5167115440072839076⟩

/-- The SHA-512 chaining state reached from `iv` on `msg` (shared by SHA-384). -/
def sha512Core (iv : Sha2State) (msg : List Nat) : Sha2State :=
  (chunks 128 (padMessage 128 16 msg)).foldl sha512Block iv

/-- SHA-512 digest (64 bytes) of a byte sequence. -/
def sha512 (msg : List Nat) : List Nat :=
  let st := sha512Core sha512IV msg
  word64Bytes st.a ++ word64Bytes st.b ++ word64Bytes st.c ++ word64Bytes st.d
    ++ word64Bytes st.e ++ word64Bytes st.f ++ word64Bytes st.g ++ word64Bytes st.h

/-- SHA-384 digest (48 bytes): SHA-512 with its own IV, truncated to six words. -/
def sha384 (msg : List Nat) : List Nat :=
  let st := sha512Core sha384IV msg
  word64Bytes st.a ++ word64Bytes st.b ++ word64Bytes st.c ++ word64Bytes st.d
    ++ word64Bytes st.e ++ word64Bytes st.f

/-! ## The simplified digest of the blocking variant

`hashFilesSync` does not call `crypto.subtle`; it hex-encodes the combined
bytes and runs the classic JavaScript 32-bit string hash
`hash = ((hash << 5) - hash) + charCode; hash = hash & hash` over that string,
returning `Math.abs(hash).toString(16)`. -/

/-- JavaScript `ToInt32`: wrap an integer into `[-2^31, 2^31)`. -/
def toInt32 (n : Int) : Int := (n + 2147483648) % 4294967296 - 2147483648

/-- One step of the loop body: `hash = ((hash << 5) - hash) + char; hash = hash & hash`.
`hash << 5` is 32-bit (`toInt32 (h * 32)`), the sum is exact, `hash & hash` is `ToInt32`. -/
def jsHashStep (h : Int) (c : Char) : Int := toInt32 (toInt32 (h * 32) - h + c.toNat)

/-- The 32-bit string hash of the blocking variant, over the characters of `hashHex`. -/
def jsStringHash (s : List Char) : Int := s.foldl jsHashStep 0

/-- Lowercase hex digits of `n` (`Number.prototype.toString(16)` for the
non-zero case); the fuel (first argument) bounds the digit count. -/
def natToHexAux : Nat → Nat → List Char
  | 0, _ => []
  | fuel + 1, n =>
    if n = 0 then [] else natToHexAux fuel (n / 16) ++ [hexDigitChar (n % 16)]

/-- `n.toString(16)` for a natural number (`"0"` at zero). -/
def natToHex (n : Nat) : String := if n = 0 then "0" else ⟨natToHexAux n n⟩

/-- The final digest string of `hashFilesSync`: hex-encode the combined bytes,
run the 32-bit string hash, and render `Math.abs` of it in hex. -/
def syncDigest (bytes : List Nat) : String :=
  natToHex (jsStringHash (hexEncodeChars bytes)).natAbs

/-! ## Filesystem, options and errors -/

/-- The filesystem state: an association list from path to byte contents.
Modelled from the spec: the platform file reads (`Deno.readFile` /
`Deno.readFileSync`) return the contents of a present path and fail on an
absent one. -/
abbrev FS := List (String × List Nat)

/-- Reading one file: the contents of the first matching entry, `none` when absent. -/
def readFile : FS → String → Option (List Nat)
  | [], _ => none
  | (q, d) :: fs, p => if p = q then some d else readFile fs p

/-- The `HashOptions` record of the source with its default values. -/
structure HashOptions where
  files : List String := ["./**"]
  algorithm : String := "sha-1"
  batchCount : Nat := 100
  noGlob : Bool := false
deriving DecidableEq, Repr

/-- The error taxonomy of the two entry points: the invalid-algorithm rejection
and the per-path read failure (`Failed to read file ${path}: ${cause}`), with the
offending path and underlying cause carried as fields. -/
inductive HashError where
  | invalidAlgorithm : HashError
  | readFailure (path : String) (cause : String) : HashError
deriving DecidableEq, Repr

/-- Outcome of an entry point: a typed failure or the digest string. -/
inductive HashResult where
  | failure (e : HashError) : HashResult
  | success (digest : String) : HashResult
deriving DecidableEq, Repr

/-- Outcome of the reading phase: a typed failure or the ordered contents. -/
inductive ReadOutcome where
  | failure (e : HashError) : ReadOutcome
  | success (contents : List (List Nat)) : ReadOutcome
deriving DecidableEq, Repr

/-- `validAlgorithms` of the source. -/
def validAlgorithms : List String := ["sha-1", "sha-256", "sha-384", "sha-512"]

/-- `isValidAlgorithm` of the source: membership in `validAlgorithms`. -/
def isValidAlgorithm (algorithm : String) : Bool := validAlgorithms.contains algorithm

/-! ## Path resolution -/

/-- `[...new Set(allFiles)]` with `seen` the accumulator: keep the first
occurrence of each string, preserving insertion order. -/
def dedupFirstAux (seen : List String) : List String → List String
  | [] => []
  | x :: xs =>
    if seen.contains x then dedupFirstAux seen xs
    else x :: dedupFirstAux (x :: seen) xs

/-- JavaScript `[...new Set(l)]`. -/
def dedupFirst (l : List String) : List String := dedupFirstAux [] l

/-- Insert a string into a sorted list, before the first element not below it. -/
def insertSorted (x : String) : List String → List String
  | [] => [x]
  | y :: ys => if y < x then y :: insertSorted x ys else x :: y :: ys

/-- JavaScript `Array.prototype.sort()` on strings: lexicographically ascending
by code units (insertion sort; the inputs are deduplicated, so stability is moot). -/
def sortStrings : List String → List String
  | [] => []
  | x :: xs => insertSorted x (sortStrings xs)

/-- The glob accumulation loop of `hashFiles` (`for (const pattern of files)
for await (const file of expandGlob(pattern)) if (file.isFile) allFiles.push`).
The collaborator `glob` stands for `expandGlob` restricted to regular files.
Modelled from the spec: pattern expansion is an external black box producing
the matched regular-file paths of one pattern. -/
def collectGlob (glob : String → List String) : List String → List String
  | [] => []
  | p :: ps => glob p ++ collectGlob glob ps

/-- `pattern.includes("*")`: whether the string has a `*` among its characters. -/
def containsStar (s : String) : Bool := s.data.contains '*'

/-- The pattern loop of `hashFilesSync`: a pattern containing `*` is skipped
with only a console warning; any other string is kept verbatim. -/
def collectSyncPatterns : List String → List String
  | [] => []
  | p :: ps =>
    if containsStar p then collectSyncPatterns ps
    else p :: collectSyncPatterns ps

/-- The `filePaths` computation of `hashFiles`: with `noGlob` the input list is
used verbatim; otherwise glob results are concatenated, deduplicated and sorted. -/
def resolvePaths (glob : String → List String) (files : List String) (noGlob : Bool) :
    List String :=
  if noGlob then files
  else sortStrings (dedupFirst (collectGlob glob files))

/-- The `filePaths` computation of `hashFilesSync`: with `noGlob` the input list
is used verbatim; otherwise starred patterns are dropped, the rest deduplicated
and sorted. -/
def resolvePathsSync (files : List String) (noGlob : Bool) : List String :=
  if noGlob then files
  else sortStrings (dedupFirst (collectSyncPatterns files))

/-! ## Reading -/

/-- Read a list of paths in order, aborting at the first failure (the sequential
loop of `hashFilesSync`, and likewise one batch of `hashFiles`: `Promise.all`
keeps per-batch order and rejects with a failing read, modelled
deterministically as the first failing path in order; the cause for an absent
path is `"NotFound"`). -/
def readFiles (fs : FS) : List String → ReadOutcome
  | [] => .success []
  | p :: ps =>
    match readFile fs p with
    | none => .failure (.readFailure p "NotFound")
    | some d =>
      match readFiles fs ps with
      | .failure e => .failure e
      | .success ds => .success (d :: ds)

/-- Process the batches strictly in order, concatenating their results
(`fileDataList.push(...batchResults)`); a failing batch aborts the call. -/
def readBatches (fs : FS) : List (List String) → ReadOutcome
  | [] => .success []
  | b :: bs =>
    match readFiles fs b with
    | .failure e => .failure e
    | .success ds =>
      match readBatches fs bs with
      | .failure e => .failure e
      | .success rest => .success (ds ++ rest)

/-- The batched read loop of `hashFiles` (`for (let i = 0; i < filePaths.length;
i += batchCount)` with `slice(i, i + batchCount)`); faithful for
`batchCount ≥ 1` — the source loop does not terminate at `batchCount = 0`. -/
def readFilesBatched (fs : FS) (batchCount : Nat) (paths : List String) : ReadOutcome :=
  readBatches fs (chunks batchCount paths)

/-! ## The two entry points -/

/-- The Web Crypto algorithm-name mapping of `hashFiles` (with its unreachable
`"SHA-1"` fallback for names that passed validation). -/
def algoName (algorithm : String) : String :=
  if algorithm = "sha-1" then "SHA-1"
  else if algorithm = "sha-256" then "SHA-256"
  else if algorithm = "sha-384" then "SHA-384"
  else if algorithm = "sha-512" then "SHA-512"
  else "SHA-1"

/-- Modelled from the spec: the digest primitive `crypto.subtle.digest` is an
external black box computing the standard digest named by its Web Crypto
identifier (only the four names produced by `algoName` are reachable). -/
def cryptoDigest (name : String) (data : List Nat) : List Nat :=
  if name = "SHA-256" then sha256 data
  else if name = "SHA-384" then sha384 data
  else if name = "SHA-512" then sha512 data
  else sha1 data

/-- The non-blocking entry point `hashFiles`: validate the algorithm, resolve
the paths, read them in batches, concatenate the contents (`combinedData` is
built by copying the buffers in list order, i.e. it is their concatenation) and
hex-encode the digest. -/
def hashFiles (glob : String → List String) (fs : FS) (options : HashOptions) :
    HashResult :=
  if isValidAlgorithm options.algorithm then
    match readFilesBatched fs options.batchCount
        (resolvePaths glob options.files options.noGlob) with
    | .failure e => .failure e
    | .success fileDataList =>
      .success (hexEncode (cryptoDigest (algoName options.algorithm)
        fileDataList.flatten))
  else .failure .invalidAlgorithm

/-- The blocking entry point `hashFilesSync`: validate the algorithm, resolve
the paths (starred patterns skipped), read them sequentially, concatenate the
contents and apply the simplified 32-bit digest. -/
def hashFilesSync (fs : FS) (options : HashOptions) : HashResult :=
  if isValidAlgorithm options.algorithm then
    match readFiles fs (resolvePathsSync options.files options.noGlob) with
    | .failure e => .failure e
    | .success fileDataList =>
      .success (syncDigest fileDataList.flatten)
  else .failure .invalidAlgorithm

/-! ### Concrete states used in the closed theorems below -/

/-- A glob collaborator matching nothing (never consulted in exact-path mode). -/
def noGlobStub : String → List String := fun _ => []

/-- A filesystem holding one file `a.txt` with ASCII contents `"abc"`. -/
def fsAbc : FS := [("a.txt", [97, 98, 99])]

/-- The request `{ files: ["a.txt"], noGlob: true }` (default algorithm `sha-1`). -/
def optsSha1Exact : HashOptions := { files := ["a.txt"], noGlob := true }

/-- A filesystem holding `f1` with contents `"abc"` and `f2` with contents `"def"`. -/
def fsAbcDef : FS := [("f1", [97, 98, 99]), ("f2", [100, 101, 102])]

/-- A filesystem holding `a` with contents `"x"` and `b` with contents `"y"`. -/
def fsXY : FS := [("a", [120]), ("b", [121])]

/-- The request `{ files: ["f1", "f2"], noGlob: true }` (default algorithm `sha-1`). -/
def optsF1F2 : HashOptions := { files := ["f1", "f2"], noGlob := true }

/-! ## Validation of the digest model against the FIPS 180-4 test vectors -/

/-- SHA-1 of `"abc"` matches the standard test vector. -/
theorem sha1_vector_abc :
    hexEncode (sha1 [97, 98, 99]) = "a9993e364706816aba3e25717850c26c9cd0d89d" := by
  decide

/-- SHA-1 of the empty message matches the standard test vector. -/
theorem sha1_vector_empty :
    hexEncode (sha1 []) = "da39a3ee5e6b4b0d3255bfef95601890afd80709" := by
  decide

/-- SHA-256 of `"abc"` matches the standard test vector. -/
theorem sha256_vector_abc :
    hexEncode (sha256 [97, 98, 99]) =
      "ba7816bf8f01cfea414140de5dae2223b00361a396177a9cb410ff61f20015ad" := by
  decide

/-- SHA-256 of the empty message matches the standard test vector. -/
theorem sha256_vector_empty :
    hexEncode (sha256 []) =
      "e3b0c44298fc1c149afbf4c8996fb92427ae41e4649b934ca495991b7852b855" := by
  decide

/-- SHA-384 of `"abc"` matches the standard test vector. -/
theorem sha384_vector_abc :
    hexEncode (sha384 [97, 98, 99]) =
      "cb00753f45a35e8bb5a03d699ac65007272c32ab0eded1631a8b605a43ff5bed8086072ba1e7cc2358baeca134c825a7" := by
  decide

/-- SHA-512 of `"abc"` matches the standard test vector. -/
theorem sha512_vector_abc :
    hexEncode (sha512 [97, 98, 99]) =
      "ddaf35a193617abacc417349ae20413112e6fa4e89a97ea20a9eeee64b55d39a2192992a274fc1a836ba3c23a3feebbd454d4423643ce80e2a9ac94fa54ca49f" := by
  decide

/-! ## Structural lemmas about the reading phase -/

/-- Reading a concatenation of path lists behaves as reading the two parts in
order, with the first failure winning. -/
theorem readFiles_append (fs : FS) (l1 l2 : List String) :
    readFiles fs (l1 ++ l2) =
      match readFiles fs l1 with
      | .failure e => .failure e
      | .success ds =>
        match readFiles fs l2 with
        | .failure e => .failure e
        | .success ds2 => .success (ds ++ ds2) := by
  induction l1 with
  | nil =>
    simp only [List.nil_append, readFiles]
    cases readFiles fs l2 <;> simp
  | cons p ps ih =>
    cases hq : readFile fs p with
    | none => simp [readFiles, hq]
    | some d =>
      simp only [List.cons_append, readFiles, hq, List.append_eq]
      rw [ih]
      cases readFiles fs ps with
      | failure e => rfl
      | success ds =>
        cases readFiles fs l2 with
        | failure e => rfl
        | success ds2 => simp

/-- Reading chunk by chunk is reading the flat list, for chunk size at least 1
and enough fuel. -/
theorem readBatches_chunksAux (fs : FS) (k : Nat) (hk : 1 ≤ k) :
    ∀ fuel l, l.length ≤ fuel →
      readBatches fs (chunksAux k fuel l) = readFiles fs l := by
  intro fuel
  induction fuel with
  | zero =>
    intro l hl
    have : l = [] := List.eq_nil_of_length_eq_zero (Nat.le_zero.mp hl)
    subst this
    rfl
  | succ n ih =>
    intro l hl
    match l with
    | [] => rfl
    | x :: xs =>
      have hdrop : ((x :: xs).drop k).length ≤ n := by
        simp only [List.length_drop, List.length_cons]
        simp only [List.length_cons] at hl
        omega
      simp only [chunksAux, readBatches]
      rw [ih _ hdrop]
      conv_rhs => rw [← List.take_append_drop k (x :: xs)]
      rw [readFiles_append]

/-- For a batch size of at least 1, the batched read loop of the non-blocking
variant is the plain sequential read. -/
theorem readFilesBatched_eq (fs : FS) (k : Nat) (l : List String) (hk : 1 ≤ k) :
    readFilesBatched fs k l = readFiles fs l :=
  readBatches_chunksAux fs k hk l.length l (Nat.le_refl _)

/-- When every path is readable, reading returns the contents in path order. -/
theorem readFiles_all_some (fs : FS) (ps : List String)
    (h : ∀ p ∈ ps, (readFile fs p).isSome) :
    readFiles fs ps = .success (ps.map fun p => (readFile fs p).getD []) := by
  induction ps with
  | nil => rfl
  | cons p ps ih =>
    obtain ⟨d, hd⟩ := Option.isSome_iff_exists.mp (h p (List.mem_cons_self p ps))
    rw [List.map_cons]
    simp only [readFiles, hd, ih fun q hq => h q (List.mem_cons_of_mem p hq)]
    rfl

/-- When some path is unreadable, reading fails with a read failure carrying an
unreadable path from the list (the first such, in order). -/
theorem readFiles_first_fail (fs : FS) (ps : List String)
    (h : ∃ p ∈ ps, readFile fs p = none) :
    ∃ p, p ∈ ps ∧ readFile fs p = none ∧
      readFiles fs ps = .failure (.readFailure p "NotFound") := by
  induction ps with
  | nil =>
    obtain ⟨p, hp, _⟩ := h
    cases hp
  | cons q qs ih =>
    cases hq : readFile fs q with
    | none =>
      exact ⟨q, List.mem_cons_self q qs, hq, by simp [readFiles, hq]⟩
    | some d =>
      obtain ⟨p, hp, hnone⟩ := h
      have hp' : p ∈ qs := by
        cases List.mem_cons.mp hp with
        | inl he => rw [he, hq] at hnone; cases hnone
        | inr h2 => exact h2
      obtain ⟨p', hmem, hnone', heq⟩ := ih ⟨p, hp', hnone⟩
      exact ⟨p', List.mem_cons_of_mem q hmem, hnone', by simp [readFiles, hq, heq]⟩

/-- When every pattern contains `*`, the pattern loop of the blocking variant
collects nothing. -/
theorem collectSyncPatterns_starred (l : List String)
    (h : ∀ p ∈ l, containsStar p = true) : collectSyncPatterns l = [] := by
  induction l with
  | nil => rfl
  | cons p ps ih =>
    simp only [collectSyncPatterns, h p (List.mem_cons_self p ps), if_true]
    exact ih fun q hq => h q (List.mem_cons_of_mem p hq)

/-! ## Shape of the non-blocking variant's digest string -/

/-- `hexDigitChar` of a value below 16 is a lowercase hex character. -/
theorem hexDigitChar_hex : ∀ m, m < 16 → isHexChar (hexDigitChar m) = true := by
  decide

/-- Both characters of a byte's hex encoding are lowercase hex characters. -/
theorem byteToHexChars_hex (b : Nat) : ∀ c ∈ byteToHexChars b, isHexChar c = true := by
  intro c hc
  simp only [byteToHexChars, List.mem_cons, List.not_mem_nil, or_false] at hc
  rcases hc with h | h <;> rw [h] <;>
    exact hexDigitChar_hex _ (Nat.mod_lt _ (by norm_num))

/-- Every character of a hex encoding is a lowercase hex character. -/
theorem hexEncodeChars_hex (bs : List Nat) :
    ∀ c ∈ hexEncodeChars bs, isHexChar c = true := by
  induction bs with
  | nil => intro c hc; cases hc
  | cons b bs ih =>
    intro c hc
    rcases List.mem_append.mp hc with h | h
    · exact byteToHexChars_hex b c h
    · exact ih c h

/-- A hex encoding has two characters per byte. -/
theorem hexEncodeChars_length (bs : List Nat) :
    (hexEncodeChars bs).length = 2 * bs.length := by
  induction bs with
  | nil => rfl
  | cons b bs ih =>
    simp only [hexEncodeChars, byteToHexChars, List.length_append, List.length_cons,
      List.length_nil, ih]
    omega

/-- SHA-1 digests are 20 bytes long. -/
theorem sha1_length (msg : List Nat) : (sha1 msg).length = 20 := by
  simp [sha1, word32Bytes]

/-- SHA-256 digests are 32 bytes long. -/
theorem sha256_length (msg : List Nat) : (sha256 msg).length = 32 := by
  simp [sha256, sha2StateBytes32, word32Bytes]

/-- SHA-384 digests are 48 bytes long. -/
theorem sha384_length (msg : List Nat) : (sha384 msg).length = 48 := by
  simp [sha384, word64Bytes]

/-- SHA-512 digests are 64 bytes long. -/
theorem sha512_length (msg : List Nat) : (sha512 msg).length = 64 := by
  simp [sha512, word64Bytes]

/-- Every successful result of the non-blocking variant is a lowercase hex
string of exactly 40 / 64 / 96 / 128 characters for `sha-1` / `sha-256` /
`sha-384` / `sha-512` (the algorithm-length law, which the blocking variant
does not satisfy — see the C5 theorem below). -/
theorem hashFiles_digest_shape (glob : String → List String) (fs : FS)
    (options : HashOptions) (s : String)
    (h : hashFiles glob fs options = .success s) :
    (∀ c ∈ s.data, isHexChar c = true) ∧
    s.length = (if options.algorithm = "sha-1" then 40
      else if options.algorithm = "sha-256" then 64
      else if options.algorithm = "sha-384" then 96 else 128) := by
  by_cases hval : isValidAlgorithm options.algorithm
  case neg =>
    simp [hashFiles, hval] at h
  case pos =>
    simp only [hashFiles, hval, if_true] at h
    cases hread : readFilesBatched fs options.batchCount
        (resolvePaths glob options.files options.noGlob) with
    | failure e => rw [hread] at h; cases h
    | success ds =>
      rw [hread] at h
      have hs : s = hexEncode (cryptoDigest (algoName options.algorithm) ds.flatten) := by
        cases h; rfl
      subst hs
      have halg : options.algorithm = "sha-1" ∨ options.algorithm = "sha-256" ∨
          options.algorithm = "sha-384" ∨ options.algorithm = "sha-512" := by
        simpa [isValidAlgorithm, validAlgorithms] using hval
      constructor
      · exact hexEncodeChars_hex _
      · show (hexEncodeChars _).length = _
        rw [hexEncodeChars_length]
        rcases halg with h1 | h1 | h1 | h1 <;> rw [h1] <;>
          simp [algoName, cryptoDigest, sha1_length, sha256_length,
            sha384_length, sha512_length]

/-! ## The claims -/

/-- C1: the spec requires the blocking and non-blocking variants to return the
identical digest string for the same request and filesystem state.  The code
violates this: evaluated on the one-file state `fsAbc` with the request
`{ files: ["a.txt"], algorithm: "sha-1", noGlob: true }`, the non-blocking
variant returns the 40-character SHA-1 digest of `"abc"` while the blocking
variant returns the 8-character simplified 32-bit hash `"5ef17fb4"`. -/
theorem variant_divergence_eval :
    hashFiles noGlobStub fsAbc optsSha1Exact =
      .success "a9993e364706816aba3e25717850c26c9cd0d89d" ∧
    hashFilesSync fsAbc optsSha1Exact = .success "5ef17fb4" ∧
    hashFiles noGlobStub fsAbc optsSha1Exact ≠ hashFilesSync fsAbc optsSha1Exact := by
  decide

/-- C2: the spec requires exact-path mode to deduplicate and sort the path list,
making the digest independent of input order.  The code violates this: with
`noGlob` the input list is used verbatim (no deduplication, no sorting), and the
two orders `["a", "b"]` / `["b", "a"]` over the state `fsXY` produce the SHA-1
digests of `"xy"` and `"yx"`, which differ. -/
theorem exact_paths_not_sorted_eval :
    resolvePaths noGlobStub ["b", "a"] true = ["b", "a"] ∧
    resolvePaths noGlobStub ["a", "a"] true = ["a", "a"] ∧
    hashFiles noGlobStub fsXY { files := ["a", "b"], noGlob := true } =
      .success "5f8459982f9f619f4b0d9af2542a2086e56a4bef" ∧
    hashFiles noGlobStub fsXY { files := ["b", "a"], noGlob := true } =
      .success "62ba5294e445f5b15f1007b8c93ccb46eab2e7e7" ∧
    hashFiles noGlobStub fsXY { files := ["a", "b"], noGlob := true } ≠
      hashFiles noGlobStub fsXY { files := ["b", "a"], noGlob := true } := by
  decide

/-- C3: an unsupported algorithm name makes both variants fail with the
invalid-algorithm error for every glob collaborator, every filesystem state and
every file list — in particular no read failure can mask the rejection, and the
outcome is independent of any I/O. -/
theorem invalidAlgorithm_rejected (glob : String → List String) (fs : FS)
    (options : HashOptions) (hbad : isValidAlgorithm options.algorithm = false) :
    hashFiles glob fs options = .failure .invalidAlgorithm ∧
    hashFilesSync fs options = .failure .invalidAlgorithm := by
  simp [hashFiles, hashFilesSync, hbad]

/-- Witness for C3 at a concrete input: algorithm `"invalid-algo"` against a
state in which the requested file exists. -/
theorem invalidAlgorithm_rejected_witness :
    hashFiles noGlobStub fsAbc
        { files := ["a.txt"], algorithm := "invalid-algo", noGlob := true } =
      .failure .invalidAlgorithm ∧
    hashFilesSync fsAbc
        { files := ["a.txt"], algorithm := "invalid-algo", noGlob := true } =
      .failure .invalidAlgorithm :=
  invalidAlgorithm_rejected noGlobStub fsAbc
    { files := ["a.txt"], algorithm := "invalid-algo", noGlob := true } (by decide)

/-- C4: for a valid algorithm and a batch size of at least 1 (the spec's
`HashRequest` invariant), if some resolved path is unreadable then each variant
fails with a read failure carrying an unreadable resolved path and its cause;
no digest string is produced. -/
theorem readFailure_aborts (glob : String → List String) (fs : FS)
    (options : HashOptions) (hval : isValidAlgorithm options.algorithm = true)
    (hbc : 1 ≤ options.batchCount) :
    ((∃ p ∈ resolvePaths glob options.files options.noGlob, readFile fs p = none) →
      ∃ p, p ∈ resolvePaths glob options.files options.noGlob ∧
        readFile fs p = none ∧
        hashFiles glob fs options = .failure (.readFailure p "NotFound")) ∧
    ((∃ p ∈ resolvePathsSync options.files options.noGlob, readFile fs p = none) →
      ∃ p, p ∈ resolvePathsSync options.files options.noGlob ∧
        readFile fs p = none ∧
        hashFilesSync fs options = .failure (.readFailure p "NotFound")) := by
  constructor
  · intro h
    obtain ⟨p, hmem, hnone, heq⟩ := readFiles_first_fail fs _ h
    refine ⟨p, hmem, hnone, ?_⟩
    simp [hashFiles, hval, readFilesBatched_eq fs options.batchCount _ hbc, heq]
  · intro h
    obtain ⟨p, hmem, hnone, heq⟩ := readFiles_first_fail fs _ h
    refine ⟨p, hmem, hnone, ?_⟩
    simp [hashFilesSync, hval, heq]

/-- Witness for C4 at a concrete input: the exact path `"missing.txt"` is
absent from `fsAbc`, and both variants fail with the read failure carrying it. -/
theorem readFailure_aborts_witness :
    (∃ p, p ∈ resolvePaths noGlobStub ["missing.txt", "a.txt"] true ∧
      readFile fsAbc p = none ∧
      hashFiles noGlobStub fsAbc { files := ["missing.txt", "a.txt"], noGlob := true } =
        .failure (.readFailure p "NotFound")) ∧
    (∃ p, p ∈ resolvePathsSync ["missing.txt", "a.txt"] true ∧
      readFile fsAbc p = none ∧
      hashFilesSync fsAbc { files := ["missing.txt", "a.txt"], noGlob := true } =
        .failure (.readFailure p "NotFound")) :=
  ⟨(readFailure_aborts noGlobStub fsAbc
      { files := ["missing.txt", "a.txt"], noGlob := true } (by decide) (by decide)).1
      ⟨"missing.txt", by decide⟩,
   (readFailure_aborts noGlobStub fsAbc
      { files := ["missing.txt", "a.txt"], noGlob := true } (by decide) (by decide)).2
      ⟨"missing.txt", by decide⟩⟩

/-- C5 concerns the digest string shape.  For the non-blocking variant the
algorithm-length law holds (helper `hashFiles_digest_shape` above), but the
claim covers either variant and the code violates it for the blocking one: on
the one-file state `fsAbc` with algorithm `sha-1` the blocking variant succeeds
with the 8-character string `"5ef17fb4"`, not a 40-character digest. -/
theorem sync_digest_length_eval :
    hashFilesSync fsAbc optsSha1Exact = .success "5ef17fb4" ∧
    ("5ef17fb4" : String).length = 8 := by
  decide

/-- C6: for a valid algorithm, exact paths, a positive batch size and readable
files, the non-blocking variant digests exactly the concatenation of the files'
byte sequences in list order — no separators, length markers or path names —
and on the concrete two-file state (`"abc"`, `"def"`) with SHA-256 the result
is the SHA-256 hex digest of the ASCII bytes `"abcdef"`. -/
theorem digest_over_concatenation (glob : String → List String) (fs : FS)
    (options : HashOptions) (hval : isValidAlgorithm options.algorithm = true)
    (hng : options.noGlob = true) (hbc : 1 ≤ options.batchCount)
    (hread : ∀ p ∈ options.files, (readFile fs p).isSome) :
    hashFiles glob fs options =
      .success (hexEncode (cryptoDigest (algoName options.algorithm)
        (options.files.map fun p => (readFile fs p).getD []).flatten)) ∧
    hashFiles noGlobStub fsAbcDef
        { files := ["f1", "f2"], algorithm := "sha-256", noGlob := true } =
      .success "bef57ec7f53a6d40beb640a780a639c83bc29ac8a9816f1fc6c5c6dcd93c4721" := by
  constructor
  · have hres : resolvePaths glob options.files options.noGlob = options.files := by
      simp [resolvePaths, hng]
    simp [hashFiles, hval, hres, readFilesBatched_eq fs options.batchCount _ hbc,
      readFiles_all_some fs _ hread]
  · decide

/-- Witness for C6 at a concrete input: the general part applied to the
two-file state with SHA-256. -/
theorem digest_over_concatenation_witness :
    hashFiles noGlobStub fsAbcDef
        { files := ["f1", "f2"], algorithm := "sha-256", noGlob := true } =
      .success (hexEncode (cryptoDigest (algoName "sha-256")
        ((["f1", "f2"].map fun p => (readFile fsAbcDef p).getD []).flatten)) ) :=
  (digest_over_concatenation noGlobStub fsAbcDef
    { files := ["f1", "f2"], algorithm := "sha-256", noGlob := true }
    (by decide) rfl (by decide) (by decide)).1

/-- C7: for batch sizes of at least 1, the non-blocking variant's result does
not depend on the batch size: the consecutive groups of at most `batchCount`
paths are read in order and merged in order, reconstructing the sequential
read. -/
theorem batchCount_invariance (glob : String → List String) (fs : FS)
    (options : HashOptions) (bc1 bc2 : Nat) (h1 : 1 ≤ bc1) (h2 : 1 ≤ bc2) :
    hashFiles glob fs { options with batchCount := bc1 } =
      hashFiles glob fs { options with batchCount := bc2 } := by
  cases options
  simp only [hashFiles]
  rw [readFilesBatched_eq fs bc1 _ h1, readFilesBatched_eq fs bc2 _ h2]

/-- Witness for C7 at a concrete input: batch sizes 1 and 100 over the
two-file state. -/
theorem batchCount_invariance_witness :
    hashFiles noGlobStub fsAbcDef { optsF1F2 with batchCount := 1 } =
      hashFiles noGlobStub fsAbcDef { optsF1F2 with batchCount := 100 } :=
  batchCount_invariance noGlobStub fsAbcDef optsF1F2 1 100 (by decide) (by decide)

/-- C8: the spec requires an empty resolved path set to produce, in both
variants, the chosen algorithm's digest of the empty byte sequence.  The code
violates this for the blocking variant: on the empty request with `sha-256`,
the non-blocking variant returns the SHA-256 empty digest while the blocking
variant returns `"0"` (its simplified hash of the empty sequence), which is not
that constant. -/
theorem empty_input_eval :
    hashFiles noGlobStub ([] : FS) { files := [], algorithm := "sha-256", noGlob := true } =
      .success "e3b0c44298fc1c149afbf4c8996fb92427ae41e4649b934ca495991b7852b855" ∧
    hashFilesSync ([] : FS) { files := [], algorithm := "sha-256", noGlob := true } =
      .success "0" ∧
    ("0" : String) ≠ "e3b0c44298fc1c149afbf4c8996fb92427ae41e4649b934ca495991b7852b855" := by
  decide

/-- C9: the pipeline is a deterministic function of the request: for a fixed
glob collaborator and filesystem state, two calls of the non-blocking variant
with identical requests return identical results. -/
theorem hash_deterministic (glob : String → List String) (fs : FS)
    (r1 r2 : HashOptions) (h : r1 = r2) :
    hashFiles glob fs r1 = hashFiles glob fs r2 := by
  rw [h]

/-- Witness for C9 at a concrete input. -/
theorem hash_deterministic_witness :
    hashFiles noGlobStub fsAbc optsSha1Exact = hashFiles noGlobStub fsAbc optsSha1Exact :=
  hash_deterministic noGlobStub fsAbc optsSha1Exact optsSha1Exact rfl

/-- C10: in the blocking variant with globbing enabled, every pattern containing
`*` is skipped (only a console warning is emitted) and contributes no files; when
every pattern contains `*`, the call succeeds with the simplified hash of the
empty byte sequence, which is `"0"`. -/
theorem sync_starred_patterns_skipped (fs : FS) (options : HashOptions)
    (hval : isValidAlgorithm options.algorithm = true)
    (hng : options.noGlob = false)
    (hstar : ∀ p ∈ options.files, containsStar p = true) :
    hashFilesSync fs options = .success (syncDigest []) ∧ syncDigest [] = "0" := by
  refine ⟨?_, by decide⟩
  have h1 : collectSyncPatterns options.files = [] :=
    collectSyncPatterns_starred options.files hstar
  simp [hashFilesSync, hval, resolvePathsSync, hng, h1, dedupFirst, dedupFirstAux,
    sortStrings, readFiles]

/-- Witness for C10 at a concrete input: two starred patterns over a non-empty
filesystem state. -/
theorem sync_starred_patterns_skipped_witness :
    hashFilesSync fsAbcDef { files := ["*.txt", "src/**"], algorithm := "sha-1" } =
      .success (syncDigest []) ∧ syncDigest [] = "0" :=
  sync_starred_patterns_skipped fsAbcDef
    { files := ["*.txt", "src/**"], algorithm := "sha-1" } (by decide) rfl (by decide)

end HashFiles
